import Mathlib

/-!
Verification of the neuhu.com real-time event delivery engine specification
against the repository's code.

The repository's browsing surface is a Next.js front end (`src/src/app`) over a
Django backend; the delivery-engine components described in the specification
(Visibility Resolver, Delivery Worker Pool, Presence Registry, Outbox Store,
Connection Gateway) are declared in the spec but their implementation is not
among the shipped sources, so those components are modelled from the spec's
words, as marked on each definition.  The deployment configuration
(`docker-compose.yml`), the compiled response/error-catalog module
(`backend/core/utils/response.py`, shipped as bytecode whose string table is
intact), the users migration (shipped as bytecode) and the dashboard page
(`src/src/app/dashboard/page.tsx`) are embedded directly from the source.
-/

namespace Neuhu

/-! ## Core data model (spec §3) -/

/-- Modelled from the spec: privacy mode of an Identity, `∈ {PUBLIC, PRIVATE}`
(spec §3); matches the `account_privacy` choices in the users migration. -/
inductive Privacy
  | PUBLIC
  | PRIVATE
deriving DecidableEq, Repr

/-- Modelled from the spec: event kind, `∈ {POST, COMMENT, LIKE, FOLLOW}` (spec §3). -/
inductive EventKind
  | POST
  | COMMENT
  | LIKE
  | FOLLOW
deriving DecidableEq, Repr

/-- Modelled from the spec: delivery state of a Notification,
`∈ {PENDING, DELIVERED, ACKED, EXPIRED}` (spec §3). -/
inductive DeliveryState
  | PENDING
  | DELIVERED
  | ACKED
  | EXPIRED
deriving DecidableEq, Repr

/-- Modelled from the spec: an Event `{event id, kind, actor id, target id,
created-at}` (spec §3), immutable once published. -/
structure Event where
  eventId : Nat
  kind : EventKind
  actorId : Nat
  targetId : Nat
  createdAt : Nat
deriving DecidableEq, Repr

/-- Modelled from the spec: a Notification `{notification id, recipient id,
event id, delivery state, attempt count, next-retry-at}` (spec §3), plus the
creation timestamp used for catch-up ordering (spec §4.7, §6). -/
structure Notification where
  notifId : Nat
  recipientId : Nat
  eventId : Nat
  state : DeliveryState
  attemptCount : Nat
  nextRetryAt : Nat
  createdAt : Nat
deriving DecidableEq, Repr

/-- Modelled from the spec: the read-only external environment the engine
consults at a delivery attempt — identities, their privacy mode, the follow
edges, the Presence Registry lookup and the gateway push outcome at that
moment (spec §4.2, §4.3, §4.5). `follows f a` means `f` follows `a`. -/
structure Env where
  users : List Nat
  privacy : Nat → Privacy
  follows : Nat → Nat → Bool
  liveConnections : Nat → List Nat
  pushOk : Nat → Bool

/-! ## Visibility Resolver (spec §4.2) -/

/-- Modelled from the spec: `canSee(actorId, recipientId, eventKind)` (spec §4.2).
If the actor's privacy is PUBLIC, followers of the actor plus the actor may see
POST/COMMENT/LIKE events; FOLLOW events are always visible (they are only ever
dispatched to the followee, spec §4.5 step 1).  If the actor's privacy is
PRIVATE, only identities with an existing FollowEdge to the actor may see
POST/COMMENT/LIKE events. -/
def canSee (env : Env) (actorId recipientId : Nat) (kind : EventKind) : Bool :=
  match kind with
  | .FOLLOW => true
  | _ =>
    match env.privacy actorId with
    | .PUBLIC => env.follows recipientId actorId || recipientId == actorId
    | .PRIVATE => env.follows recipientId actorId

/-! ## Delivery Worker Pool (spec §4.5) -/

/-- Modelled from the spec: retry/backoff configuration — maximum attempt
count and exponential backoff base/ceiling (spec §4.5 step 6, §5). -/
structure RetryConfig where
  maxAttempts : Nat
  baseDelay : Nat
  maxDelay : Nat
deriving DecidableEq, Repr

/-- Modelled from the spec: exponential backoff with base 2 and a capped
ceiling (spec §4.5 step 6). -/
def backoffDelay (cfg : RetryConfig) (attempts : Nat) : Nat :=
  min (cfg.baseDelay * 2 ^ attempts) cfg.maxDelay

/-- Modelled from the spec: candidate recipient set of an event — the actor's
followers for POST/COMMENT/LIKE, the single followee for FOLLOW
(spec §4.5 step 1). -/
def candidates (env : Env) (e : Event) : List Nat :=
  match e.kind with
  | .FOLLOW => [e.targetId]
  | _ => env.users.filter fun r => env.follows r e.actorId

/-- Does a Notification for `(recipient, event id)` exist in the store? -/
def hasNotif (notifs : List Notification) (r eid : Nat) : Bool :=
  notifs.any fun n => n.recipientId == r && n.eventId == eid

/-- Modelled from the spec: engine-owned mutable state — the Notification
records (Outbox Store) plus a fresh-id counter. -/
structure EngineState where
  notifications : List Notification
  nextNotifId : Nat
deriving Repr

/-- Modelled from the spec: a freshly created Notification starts in
PENDING state with attempt count 0 (spec §4.5 step 4). -/
def mkNotification (nid r eid now : Nat) : Notification :=
  ⟨nid, r, eid, .PENDING, 0, 0, now⟩

/-- Modelled from the spec: the immediate delivery attempt on a fresh
Notification (spec §4.5 steps 5–6): if the recipient has a live connection and
the push succeeds the Notification becomes DELIVERED; otherwise it stays
PENDING with `attempt count += 1` and `next-retry-at` set by backoff. -/
def attemptDelivery (cfg : RetryConfig) (env : Env) (n : Notification) : Notification :=
  if (env.liveConnections n.recipientId).isEmpty then
    { n with attemptCount := n.attemptCount + 1,
             nextRetryAt := backoffDelay cfg n.attemptCount }
  else if env.pushOk n.recipientId then
    { n with state := .DELIVERED }
  else
    { n with attemptCount := n.attemptCount + 1,
             nextRetryAt := backoffDelay cfg n.attemptCount }

/-- Modelled from the spec: processing of one candidate recipient
(spec §4.5 steps 2–6): check `canSee` at this very delivery attempt, skip if a
Notification for `(recipient, event id)` already exists, otherwise create one
and attempt delivery. -/
def deliverOne (cfg : RetryConfig) (env : Env) (e : Event)
    (s : EngineState) (r : Nat) : EngineState :=
  if canSee env e.actorId r e.kind then
    if hasNotif s.notifications r e.eventId then s
    else
      let n := attemptDelivery cfg env (mkNotification s.nextNotifId r e.eventId e.createdAt)
      ⟨s.notifications ++ [n], s.nextNotifId + 1⟩
  else s

/-- Modelled from the spec: processing of one Event received from the Event
Bus (spec §4.5): fold the per-recipient delivery step over the candidate set,
with visibility re-evaluated against the environment of this delivery attempt. -/
def processEvent (cfg : RetryConfig) (env : Env) (s : EngineState) (e : Event) : EngineState :=
  (candidates env e).foldl (deliverOne cfg env e) s

/-! ## Notification state machine and Outbox Store writes (spec §3, §4.5, §4.6) -/

/-- Modelled from the spec: position of a delivery state along the monotonic
order PENDING → DELIVERED → ACKED, with EXPIRED as the terminal abandonment
state (spec §3, §8). -/
def rank : DeliveryState → Nat
  | .PENDING => 0
  | .DELIVERED => 1
  | .ACKED => 2
  | .EXPIRED => 3

/-- Modelled from the spec: a last-writer-wins Outbox Store state write, which
accepts a transition only when it does not move backward along the monotonic
order; a backward write attempt is rejected as a no-op (spec §4.6). -/
def outboxWrite (n : Notification) (target : DeliveryState) : Notification :=
  if rank n.state ≤ rank target then { n with state := target } else n

/-- Modelled from the spec: the acknowledgment-timeout path of the Delivery
Worker Pool — an unacknowledged DELIVERED Notification reverts to PENDING
after a short timeout and is retried (spec §4.5, "Acknowledgment"). -/
def ackTimeoutRevert (n : Notification) : Notification :=
  if n.state == DeliveryState.DELIVERED then { n with state := .PENDING } else n

/-! ## Retry sweep (spec §4.5 failure semantics, §5) -/

/-- Modelled from the spec: one failing pass of the retry sweep over a
Notification (spec §4.5 step 6–7, §5 "Cancellation/timeout"): a PENDING
Notification whose attempt count would exceed the maximum attempt count is
abandoned as EXPIRED; otherwise its attempt count is incremented and its
next-retry-at pushed out by exponential backoff.  Non-PENDING records are
untouched by the sweep. -/
def retryFail (cfg : RetryConfig) (n : Notification) : Notification :=
  if n.state == DeliveryState.PENDING then
    if cfg.maxAttempts < n.attemptCount + 1 then
      { n with state := .EXPIRED }
    else
      { n with attemptCount := n.attemptCount + 1,
               nextRetryAt := n.nextRetryAt + backoffDelay cfg n.attemptCount }
  else n

/-! ## Offline catch-up replay (spec §4.7, §6) -/

/-- Modelled from the spec: the Outbox Store index "fetch all PENDING for
recipient" (spec §4.6). -/
def pendingFor (notifs : List Notification) (r : Nat) : List Notification :=
  notifs.filter fun n => n.recipientId == r && n.state == DeliveryState.PENDING

/-- Comparison of Notifications by creation time, used for replay ordering. -/
def createdLE (a b : Notification) : Prop :=
  a.createdAt ≤ b.createdAt

instance : DecidableRel createdLE := fun a b => Nat.decLe a.createdAt b.createdAt

/-- Modelled from the spec: the catch-up fetch on reconnect — all PENDING
Notifications of the identity, replayed in creation order (spec §4.7, §6
"Catch-up fetch"). -/
def catchUp (notifs : List Notification) (r : Nat) : List Notification :=
  List.insertionSort createdLE (pendingFor notifs r)

/-- Modelled from the spec: on reconnect the Connection Gateway replays the
catch-up batch before resuming live fan-out, so the frame sequence pushed to
the recipient is the replay followed by the live pushes (spec §4.7). -/
def reconnectFrames (notifs : List Notification) (r : Nat)
    (live : List Notification) : List Notification :=
  catchUp notifs r ++ live

/-- The list is strictly ascending in creation time. -/
def strictlyAscendingByCreation (l : List Notification) : Prop :=
  List.Pairwise (fun a b => a.createdAt < b.createdAt) l

/-- The creation times of a recipient's PENDING notifications. -/
def pendingCreationTimes (notifs : List Notification) (r : Nat) : List Nat :=
  (pendingFor notifs r).map Notification.createdAt

/-! ## Presence Registry and Connection Gateway (spec §4.3, §4.7) -/

/-- Modelled from the spec: Connection liveness state `∈ {OPEN, CLOSING,
CLOSED}` (spec §3). -/
inductive ConnLiveness
  | OPEN
  | CLOSING
  | CLOSED
deriving DecidableEq, Repr

/-- Modelled from the spec: the Presence Registry — a back-reference map
identity → set of connection ids, held as a list of (identity, connection id)
pairs (spec §3, §4.3). -/
structure PresenceRegistry where
  entries : List (Nat × Nat)
deriving DecidableEq, Repr

/-- Modelled from the spec: `register(identity, connectionId)` (spec §4.3). -/
def PresenceRegistry.register (reg : PresenceRegistry) (ident conn : Nat) : PresenceRegistry :=
  if (ident, conn) ∈ reg.entries then reg else ⟨reg.entries ++ [(ident, conn)]⟩

/-- Modelled from the spec: `unregister(identity, connectionId)` — immediate
removal, idempotent (unregistering an absent pair is a no-op) (spec §4.3). -/
def PresenceRegistry.unregister (reg : PresenceRegistry) (ident conn : Nat) : PresenceRegistry :=
  ⟨reg.entries.filter fun p => !(p.1 == ident && p.2 == conn)⟩

/-- Modelled from the spec: `lookup(identity) -> set of connectionId` (spec §4.3). -/
def PresenceRegistry.lookup (reg : PresenceRegistry) (ident : Nat) : List Nat :=
  (reg.entries.filter fun p => p.1 == ident).map Prod.snd

/-- Modelled from the spec: the Connection Gateway's view — the Presence
Registry plus the liveness state of every connection id (spec §4.7). -/
structure GatewayState where
  registry : PresenceRegistry
  connState : Nat → ConnLiveness

/-- Modelled from the spec: admission — the gateway opens the connection and
calls Presence Registry `register` (spec §4.7). -/
def admitConn (g : GatewayState) (ident conn : Nat) : GatewayState :=
  ⟨g.registry.register ident conn,
   fun c => if c == conn then .OPEN else g.connState c⟩

/-- Modelled from the spec: disconnect detection — the gateway calls
`unregister` and marks the Connection CLOSED; removal from the registry is
immediate, never lazy (spec §3, §4.7). -/
def closeConn (g : GatewayState) (ident conn : Nat) : GatewayState :=
  ⟨g.registry.unregister ident conn,
   fun c => if c == conn then .CLOSED else g.connState c⟩

/-- Every registry entry references a currently OPEN connection. -/
def registryOnlyOpen (g : GatewayState) : Prop :=
  ∀ p ∈ g.registry.entries, g.connState p.2 = ConnLiveness.OPEN

/-! ## Deployment configuration (`docker-compose.yml`) -/

/-- A service entry of `docker-compose.yml`: name, command (tokenized),
volume mounts as (source, target) pairs, and raw `KEY=VALUE` environment
entries. -/
structure ComposeService where
  name : String
  command : List String
  volumes : List (String × String)
  environment : List String
deriving DecidableEq, Repr

/-- The `redis` service of `docker-compose.yml` (lines 20–33): image
`redis:alpine`, command `redis-server --appendonly yes`, volume
`redis_data:/data`. -/
def redisService : ComposeService :=
  ⟨"redis", ["redis-server", "--appendonly", "yes"], [("redis_data", "/data")], []⟩

/-- The `backend` service of `docker-compose.yml`: runs daphne and points the
channel layer and task queue at the `redis` service. -/
def backendService : ComposeService :=
  ⟨"backend",
   ["bash", "-c",
    "python manage.py collectstatic --noinput && daphne -b 0.0.0.0 -p 8000 core.asgi:application"],
   [("./backend", "/app"), ("static_volume", "/app/static"), ("media_volume", "/app/media"),
    ("./backend/core/utils", "/app/core/utils")],
   ["DAPHNE_HOST=0.0.0.0", "DAPHNE_PORT=8000", "DAPHNE_WEBSOCKET_TIMEOUT=300",
    "DJANGO_ENV=development", "DJANGO_SETTINGS_MODULE=core.settings.local",
    "SECRET_KEY=your-secret-key-here", "CORS_ALLOW_ALL_ORIGINS=True",
    "ALLOWED_HOSTS=localhost,127.0.0.1", "PYTHONPATH=/app",
    "PYTHONDONTWRITEBYTECODE=1", "PYTHONUNBUFFERED=1", "POSTGRES_DB=dbname",
    "POSTGRES_USER=user", "POSTGRES_PASSWORD=password", "POSTGRES_HOST=db",
    "POSTGRES_PORT=5432", "REDIS_URL=redis://redis:6379/0",
    "CHANNEL_LAYERS_HOST=redis"]⟩

/-- The top-level named volumes of `docker-compose.yml`; a named volume is
durable storage that survives container restarts. -/
def composeNamedVolumes : List String :=
  ["postgres_data", "redis_data", "static_volume", "media_volume"]

/-- The redis server is started with append-only-file persistence enabled
(`redis-server --appendonly yes`). -/
def redisAppendOnly : Bool :=
  redisService.command.contains "--appendonly" && redisService.command.contains "yes"

/-- The redis service mounts a durable top-level named volume for its data
directory. -/
def redisDurableVolume : Bool :=
  redisService.volumes.any fun v => composeNamedVolumes.contains v.1

/-- The backend's channel layer (carrying presence/group state) is hosted on
the `redis` service. -/
def channelLayersHostIsRedis : Bool :=
  backendService.environment.contains "CHANNEL_LAYERS_HOST=redis"

/-- Modelled from the spec: the claim "Presence Registry state is never
persisted" read against the deployment — it requires that the store backing
the channel layer not be configured with durable persistence. -/
def registryBackingNotPersisted : Bool :=
  !(channelLayersHostIsRedis && redisAppendOnly && redisDurableVolume)

/-! ## Response envelope and error catalog (`backend/core/utils/response.py`,
shipped as `response.cpython-311.pyc`; the constants, names and docstrings in
its string table are intact and are embedded here) -/

/-- The `ErrorCode` catalog of `backend/core/utils/response.py`: twelve
machine-readable codes, assigned in source order to the class attributes
`INVALID_CREDENTIALS` … `FILE_TOO_LARGE`. -/
inductive ErrorCode
  | INVALID_CREDENTIALS
  | EMAIL_NOT_VERIFIED
  | EMAIL_ALREADY_EXISTS
  | INVALID_TOKEN
  | USER_NOT_FOUND
  | USERNAME_TAKEN
  | INVALID_EMAIL
  | INVALID_PASSWORD
  | REQUIRED_FIELD
  | INVALID_FORMAT
  | INVALID_IMAGE
  | FILE_TOO_LARGE
deriving DecidableEq, Repr

/-- The machine-readable code string of each `ErrorCode` attribute, as in the
compiled module's constant table. -/
def ErrorCode.code : ErrorCode → String
  | .INVALID_CREDENTIALS => "AUTH_001"
  | .EMAIL_NOT_VERIFIED => "AUTH_002"
  | .EMAIL_ALREADY_EXISTS => "AUTH_003"
  | .INVALID_TOKEN => "AUTH_004"
  | .USER_NOT_FOUND => "USER_001"
  | .USERNAME_TAKEN => "USER_002"
  | .INVALID_EMAIL => "USER_003"
  | .INVALID_PASSWORD => "VAL_001"
  | .REQUIRED_FIELD => "VAL_002"
  | .INVALID_FORMAT => "VAL_003"
  | .INVALID_IMAGE => "PROF_001"
  | .FILE_TOO_LARGE => "PROF_002"

/-- The `ERROR_MESSAGES` table of `backend/core/utils/response.py`: the
human-readable message of each error code. -/
def errorMessage : ErrorCode → String
  | .INVALID_CREDENTIALS => "Invalid email or password"
  | .EMAIL_NOT_VERIFIED => "Please verify your email before proceeding"
  | .EMAIL_ALREADY_EXISTS => "An account with this email already exists"
  | .INVALID_TOKEN => "Invalid or expired token"
  | .USER_NOT_FOUND => "User not found"
  | .USERNAME_TAKEN => "This username is already taken"
  | .INVALID_EMAIL => "Please enter a valid email address"
  | .INVALID_PASSWORD =>
      "Password must be at least 8 characters and contain letters and numbers"
  | .REQUIRED_FIELD => "This field is required"
  | .INVALID_FORMAT => "Invalid format"
  | .INVALID_IMAGE => "Invalid image format. Please upload JPG, PNG or WebP"
  | .FILE_TOO_LARGE => "File size should not exceed 5MB"

/-- All twelve error codes of the catalog. -/
def allErrorCodes : List ErrorCode :=
  [.INVALID_CREDENTIALS, .EMAIL_NOT_VERIFIED, .EMAIL_ALREADY_EXISTS, .INVALID_TOKEN,
   .USER_NOT_FOUND, .USERNAME_TAKEN, .INVALID_EMAIL,
   .INVALID_PASSWORD, .REQUIRED_FIELD, .INVALID_FORMAT,
   .INVALID_IMAGE, .FILE_TOO_LARGE]

/-- The concern group of a code string: its prefix before the first
underscore (`AUTH_001 ↦ AUTH`, `PROF_002 ↦ PROF`, …). -/
def codeGroup (s : String) : String :=
  String.mk (s.toList.takeWhile fun c => c ≠ '_')

/-- The payload of a synchronous response: the success branch carries `data`,
the error branch carries a machine-readable `error_code` and optional
field-level `errors`. -/
structure ApiEnvelope where
  success : Bool
  message : String
  data : Option String
  error_code : Option String
  errors : Option (List (String × String))
deriving DecidableEq, Repr

/-- `api_response(success, message, data, status_code)` of
`backend/core/utils/response.py` ("Standard API response format"): builds the
uniform envelope `{success, message, data}`. -/
def api_response (success : Bool) (message : String) (data : Option String) : ApiEnvelope :=
  ⟨success, message, data, none, none⟩

/-- `error_response(message, error_code, errors, status_code)` of
`backend/core/utils/response.py` ("Standard error response format"): builds
the uniform envelope with `success` hard-coded to `False` and the
machine-readable `error_code` and optional `errors` attached. -/
def error_response (message : String) (ec : Option ErrorCode)
    (errors : Option (List (String × String))) : ApiEnvelope :=
  ⟨false, message, none, ec.map ErrorCode.code, errors⟩

/-! ## Users migration (`backend/users/migrations/0001_initial.py`, shipped as
bytecode with an intact constant table) -/

/-- The `choices` of the `account_privacy` CharField in the `User` model of
`users/migrations/0001_initial.py`: `(PUBLIC, Public)` and
`(PRIVATE, Private)`. -/
def accountPrivacyChoices : List (String × String) :=
  [("PUBLIC", "Public"), ("PRIVATE", "Private")]

/-- A value is admitted for `account_privacy` iff it is one of the declared
choices. -/
def isValidAccountPrivacy (v : String) : Bool :=
  accountPrivacyChoices.any fun c => c.1 == v

/-! ## Dashboard page (`src/src/app/dashboard/page.tsx`) -/

/-- A post as rendered by the dashboard feed (the fields of the `mockPosts`
entries that the sections' rendering depends on). -/
structure Post where
  id : Nat
  postType : String
  title : String
  author : String
  timestamp : String
  likes : Nat
deriving DecidableEq, Repr

/-- The `mockPosts` array of `dashboard/page.tsx` (projected to the embedded
fields). -/
def mockPosts : List Post :=
  [⟨1, "news", "The Future of AI in Business", "John Doe", "2h ago", 234⟩,
   ⟨2, "audio", "Market Analysis: Q1 2024", "Jane Smith", "4h ago", 156⟩]

/-- The "Latest For You" section of the dashboard renders
`mockPosts.slice(0, 2)` (`page.tsx` line 309). -/
def latestForYouPosts (posts : List Post) : List Post :=
  posts.take 2

/-- The "Trending Posts" section of the dashboard renders `mockPosts.slice(2)`
(`page.tsx` line 325). -/
def trendingPosts (posts : List Post) : List Post :=
  posts.drop 2

/-- The posts rendered by the two sections, in page order: the
"Latest For You" cards followed by the "Trending Posts" cards. -/
def renderedPosts (posts : List Post) : List Post :=
  latestForYouPosts posts ++ trendingPosts posts

/-- Outcome of the `await authApi.logout()` call in `handleLogout`
(`page.tsx` lines 129–155): it resolves, or it throws an `ApiError` carrying a
`userMessage`, or it throws some other error. -/
inductive LogoutOutcome
  | success
  | apiError (userMessage : String)
  | otherError
deriving DecidableEq, Repr

/-- An observable effect performed by `handleLogout`. `navigate path delayMs`
records a `router.push(path)` issued after `delayMs` milliseconds
(`setTimeout(..., 1500)` on the catch path, immediate on the success path). -/
inductive Effect
  | callBackendLogout
  | clearLocalStorage
  | toastSuccess (msg : String)
  | toastError (msg : String)
  | navigate (path : String) (delayMs : Nat)
deriving DecidableEq, Repr

/-- The effect trace of `handleLogout` (`dashboard/page.tsx` lines 129–155):
on success, clear `localStorage`, toast success and push `/` immediately; on
any thrown error, clear `localStorage`, toast the `ApiError`'s `userMessage`
(or the generic local-logout message) and push `/` after 1500 ms. -/
def handleLogout : LogoutOutcome → List Effect
  | .success =>
      [.callBackendLogout, .clearLocalStorage,
       .toastSuccess "Logged out successfully", .navigate "/" 0]
  | .apiError m =>
      [.callBackendLogout, .clearLocalStorage, .toastError m, .navigate "/" 1500]
  | .otherError =>
      [.callBackendLogout, .clearLocalStorage,
       .toastError "Error during logout, but you have been logged out locally",
       .navigate "/" 1500]

/-- The delay, in milliseconds, after which `handleLogout` navigates to `/`:
immediate on the success path, 1500 ms on the error path. -/
def logoutNavDelay : LogoutOutcome → Nat
  | .success => 0
  | .apiError _ => 1500
  | .otherError => 1500

/-! ## Auxiliary definitions used by the statements -/

/-- Number of Notification records for the `(recipient, event id)` pair. -/
def pairCount (notifs : List Notification) (r eid : Nat) : Nat :=
  (notifs.filter fun n => n.recipientId == r && n.eventId == eid).length

/-- Modelled from the spec: repeated consumption from the Event Bus — a
sequence of delivery attempts, each against the environment current at that
attempt (spec §4.4 at-least-once redelivery, §4.2 per-attempt visibility). -/
def processAll (cfg : RetryConfig) (s : EngineState)
    (attempts : List (Env × Event)) : EngineState :=
  attempts.foldl (fun st p => processEvent cfg p.1 st p.2) s

/-- Every Notification in the list belongs to recipient `r` and is PENDING. -/
def allPendingFor (l : List Notification) (r : Nat) : Prop :=
  ∀ n ∈ l, n.recipientId = r ∧ n.state = DeliveryState.PENDING

/-- A concrete environment: actor 0 is PUBLIC, identity 1 follows actor 0,
identity 2 does not, nobody is connected. -/
def sampleEnvPublic : Env :=
  ⟨[1, 2], fun _ => Privacy.PUBLIC, fun f a => f == 1 && a == 0,
   fun _ => [], fun _ => true⟩

/-- A concrete environment after the author flipped to PRIVATE: actor 0 is
PRIVATE and the follow edges are unchanged. -/
def sampleEnvPrivate : Env :=
  ⟨[1, 2], fun _ => Privacy.PRIVATE, fun f a => f == 1 && a == 0,
   fun _ => [], fun _ => true⟩

/-- A concrete POST event by actor 0. -/
def sampleEvent : Event :=
  ⟨100, EventKind.POST, 0, 50, 10⟩

/-- The engine state with an empty Notification store. -/
def emptyEngineState : EngineState :=
  ⟨[], 0⟩

/-- A concrete gateway state: identity 1 holds the OPEN connection 10. -/
def sampleGateway : GatewayState :=
  ⟨⟨[(1, 10)]⟩, fun c => if c == 10 then ConnLiveness.OPEN else ConnLiveness.CLOSED⟩

instance : IsTotal Notification createdLE :=
  ⟨fun a b => Nat.le_total a.createdAt b.createdAt⟩

instance : IsTrans Notification createdLE :=
  ⟨fun _ _ _ hab hbc => Nat.le_trans hab hbc⟩

/-! # Theorems -/

/-- C8: every Identity's privacy mode is exactly one of PUBLIC or PRIVATE —
the `account_privacy` attribute admits those two values and no other. -/
theorem c8_account_privacy_two_values (v : String) :
    isValidAccountPrivacy v = true ↔ (v = "PUBLIC" ∨ v = "PRIVATE") := by
  simp only [isValidAccountPrivacy, accountPrivacyChoices, List.any_cons,
    List.any_nil, Bool.or_false, Bool.or_eq_true, beq_iff_eq]
  constructor
  · rintro (h | h) <;> [left; right] <;> exact h.symm
  · rintro (h | h) <;> [left; right] <;> exact h.symm

/-- C10: the "Latest For You" section renders exactly the first two posts
(`slice(0, 2)`), the "Trending Posts" section renders exactly the remaining
posts (`slice(2)`), and for every posts list the two sections together render
each post exactly once and in list order. -/
theorem c10_dashboard_sections_partition (posts : List Post) :
    latestForYouPosts posts = posts.take 2 ∧
    trendingPosts posts = posts.drop 2 ∧
    renderedPosts posts = posts ∧
    ∀ p : Post, (renderedPosts posts).count p = posts.count p := by
  refine ⟨rfl, rfl, ?_, ?_⟩
  · exact List.take_append_drop 2 posts
  · intro p
    rw [renderedPosts, latestForYouPosts, trendingPosts, List.take_append_drop]

/-- C9: the dashboard's logout handler clears all of `localStorage` and
navigates to `/` on every execution path — immediately when the backend call
succeeds, and after a 1.5-second delay when `authApi.logout()` throws; no
path leaves the local session state in place. -/
theorem c9_logout_always_clears_and_navigates (o : LogoutOutcome) :
    Effect.clearLocalStorage ∈ handleLogout o ∧
    Effect.navigate "/" (logoutNavDelay o) ∈ handleLogout o ∧
    logoutNavDelay o = (if o = LogoutOutcome.success then 0 else 1500) := by
  cases o <;> simp [handleLogout, logoutNavDelay]

/-- C4, counterexample: the error catalog is not grouped by the three concerns
authentication, resource lookup and validation alone — `PROF_001`
(`INVALID_IMAGE`) is a catalog member whose group prefix `PROF` is none of
`AUTH`, `USER`, `VAL`. -/
theorem c4_counterexample_prof_group :
    ErrorCode.INVALID_IMAGE ∈ allErrorCodes ∧
    codeGroup (ErrorCode.code ErrorCode.INVALID_IMAGE) = "PROF" ∧
    (["AUTH", "USER", "VAL"].contains "PROF") = false := by
  refine ⟨by decide, rfl, by decide⟩

/-- C4 (amended): every synchronous response built by the core's helpers uses
the uniform envelope — `error_response` hard-codes `success := false` and
carries `message`, the machine-readable `error_code` and optional `errors`;
`api_response` carries `success`, `message` and `data` — and the fixed error
catalog is grouped by four concern prefixes (`AUTH`, `USER`, `VAL`, `PROF`),
with a nonempty human-readable message defined for every code. -/
theorem c4_envelope_and_catalog :
    (∀ c : ErrorCode, codeGroup c.code ∈ ["AUTH", "USER", "VAL", "PROF"]) ∧
    (∀ c : ErrorCode, 0 < (errorMessage c).length) ∧
    (∀ (m : String) (ec : Option ErrorCode) (errs : Option (List (String × String))),
      (error_response m ec errs).success = false ∧
      (error_response m ec errs).message = m ∧
      (error_response m ec errs).error_code = ec.map ErrorCode.code ∧
      (error_response m ec errs).errors = errs ∧
      (error_response m ec errs).data = none) ∧
    (∀ (su : Bool) (m : String) (d : Option String),
      (api_response su m d).success = su ∧
      (api_response su m d).message = m ∧
      (api_response su m d).data = d ∧
      (api_response su m d).error_code = none) := by
  refine ⟨fun c => by cases c <;> decide, fun c => by cases c <;> decide, ?_, ?_⟩
  · intro m ec errs
    exact ⟨rfl, rfl, rfl, rfl, rfl⟩
  · intro su m d
    exact ⟨rfl, rfl, rfl, rfl⟩

/-- C3, counterexample: the acknowledgment-timeout path of spec §4.5 is an
operation of the system that moves a DELIVERED Notification backward to
PENDING, so the claim that no operation ever moves a Notification's state
backward along PENDING → DELIVERED → ACKED fails. -/
theorem c3_counterexample_ack_timeout_revert :
    (ackTimeoutRevert ⟨0, 1, 1, DeliveryState.DELIVERED, 0, 0, 0⟩).state =
      DeliveryState.PENDING ∧
    rank DeliveryState.PENDING < rank DeliveryState.DELIVERED := by
  decide

/-- C3 (amended): Outbox Store state writes are monotonic along
PENDING → DELIVERED → ACKED (with EXPIRED terminal): a write never lowers the
state's rank and a backward write attempt is rejected as a no-op; the sole
backward move in the system is the §4.5 acknowledgment-timeout reversion,
which acts only on DELIVERED records and re-queues them as PENDING. -/
theorem c3_store_writes_monotonic (n : Notification) (target : DeliveryState) :
    rank n.state ≤ rank (outboxWrite n target).state ∧
    (rank target < rank n.state → outboxWrite n target = n) ∧
    (n.state = DeliveryState.DELIVERED →
      ackTimeoutRevert n = { n with state := DeliveryState.PENDING }) ∧
    (n.state ≠ DeliveryState.DELIVERED → ackTimeoutRevert n = n) := by
  obtain ⟨nid, r, eid, st, a, nr, c⟩ := n
  refine ⟨?_, ?_, ?_, ?_⟩ <;>
    cases st <;> cases target <;>
      simp [outboxWrite, rank, ackTimeoutRevert]

/-- Witness for `c3_store_writes_monotonic` at a concrete record: a backward
write ACKED → PENDING is rejected as a no-op and never lowers the rank. -/
theorem c3_store_writes_monotonic_witness :
    rank (⟨5, 2, 7, DeliveryState.ACKED, 1, 0, 0⟩ : Notification).state ≤
      rank (outboxWrite ⟨5, 2, 7, DeliveryState.ACKED, 1, 0, 0⟩
        DeliveryState.PENDING).state ∧
    outboxWrite (⟨5, 2, 7, DeliveryState.ACKED, 1, 0, 0⟩ : Notification)
        DeliveryState.PENDING = ⟨5, 2, 7, DeliveryState.ACKED, 1, 0, 0⟩ :=
  ⟨(c3_store_writes_monotonic ⟨5, 2, 7, DeliveryState.ACKED, 1, 0, 0⟩
      DeliveryState.PENDING).1,
   (c3_store_writes_monotonic ⟨5, 2, 7, DeliveryState.ACKED, 1, 0, 0⟩
      DeliveryState.PENDING).2.1 (by decide)⟩

/-- C7, counterexample: the deployment persists the store backing the
Presence Registry.  `docker-compose.yml` points the backend's channel layer
(the store carrying presence/group state) at the `redis` service
(`CHANNEL_LAYERS_HOST=redis`), and starts that service with append-only-file
persistence (`redis-server --appendonly yes`) on the durable named volume
`redis_data` — so registry entries survive a restart of the backing store
instead of being reconstructed from live connections only. -/
theorem c7_counterexample_persistent_backing :
    channelLayersHostIsRedis = true ∧
    redisAppendOnly = true ∧
    redisDurableVolume = true ∧
    registryBackingNotPersisted = false := by
  decide

/-- C7 (amended): the Presence Registry itself references only currently OPEN
connections — admission registers an OPEN connection, closure removes the
entry immediately (never lazily) and `unregister` is idempotent — but the
deployed channel-layer backing store (Redis) is configured with append-only
persistence on a durable volume, so registry state is persisted by the
deployment rather than guaranteed to be wiped by a restart of the store. -/
theorem c7_registry_only_open (g : GatewayState) (ident conn : Nat)
    (hg : registryOnlyOpen g)
    (hown : ∀ p ∈ g.registry.entries, p.2 = conn → p.1 = ident) :
    registryOnlyOpen (admitConn g ident conn) ∧
    registryOnlyOpen (closeConn g ident conn) ∧
    (ident, conn) ∉ (closeConn g ident conn).registry.entries ∧
    (g.registry.unregister ident conn).unregister ident conn =
      g.registry.unregister ident conn ∧
    registryBackingNotPersisted = false := by
  refine ⟨?_, ?_, ?_, ?_, by decide⟩
  · intro p hp
    simp only [admitConn] at hp ⊢
    by_cases hc : p.2 = conn
    · simp [hc]
    · simp only [beq_iff_eq, hc, if_false]
      have hpmem : p ∈ g.registry.entries := by
        unfold PresenceRegistry.register at hp
        by_cases hmem : (ident, conn) ∈ g.registry.entries
        · simpa [hmem] using hp
        · simp only [hmem, if_false, List.mem_append, List.mem_singleton] at hp
          rcases hp with hp | hp
          · exact hp
          · exact absurd (congrArg Prod.snd hp) (by simpa using hc)
      exact hg p hpmem
  · intro p hp
    simp only [closeConn, PresenceRegistry.unregister, List.mem_filter] at hp
    obtain ⟨hpmem, hpf⟩ := hp
    have hc : p.2 ≠ conn := by
      intro hc
      have := hown p hpmem hc
      simp [this, hc] at hpf
    simp only [closeConn, beq_iff_eq, hc, if_false]
    exact hg p hpmem
  · intro hmem
    simp [closeConn, PresenceRegistry.unregister, List.mem_filter] at hmem
  · simp [PresenceRegistry.unregister, List.filter_filter]

/-- Witness for `c7_registry_only_open` at a concrete gateway state holding
one OPEN connection 10 for identity 1, re-admitting and closing that
connection. -/
theorem c7_registry_only_open_witness :
    registryOnlyOpen (admitConn sampleGateway 1 10) ∧
    registryOnlyOpen (closeConn sampleGateway 1 10) ∧
    (1, 10) ∉ (closeConn sampleGateway 1 10).registry.entries ∧
    (sampleGateway.registry.unregister 1 10).unregister 1 10 =
      sampleGateway.registry.unregister 1 10 ∧
    registryBackingNotPersisted = false :=
  c7_registry_only_open sampleGateway 1 10
    (fun p hp => by
      simp only [sampleGateway, List.mem_singleton] at hp
      simp [sampleGateway, hp])
    (fun p hp _ => by
      simp only [sampleGateway, List.mem_singleton] at hp
      simp [hp])

/-- An EXPIRED Notification is a fixed point of the retry sweep. -/
theorem retryFail_expired_fixed (cfg : RetryConfig) (n : Notification)
    (h : n.state = DeliveryState.EXPIRED) : retryFail cfg n = n := by
  simp [retryFail, h]

/-- Iterating the failing retry sweep long enough from a PENDING record
reaches EXPIRED: once the attempt counter can exceed the bound within `k + 1`
failing sweeps, the record is EXPIRED afterwards. -/
theorem retryFail_iterate_expires (cfg : RetryConfig) :
    ∀ (k : Nat) (n : Notification), n.state = DeliveryState.PENDING →
      cfg.maxAttempts ≤ n.attemptCount + k →
      ((retryFail cfg)^[k + 1] n).state = DeliveryState.EXPIRED := by
  intro k
  induction k with
  | zero =>
    intro n hs hb
    simp only [Nat.zero_add, Function.iterate_one]
    have : cfg.maxAttempts < n.attemptCount + 1 := Nat.lt_succ_of_le hb
    simp [retryFail, hs, this]
  | succ k ih =>
    intro n hs hb
    rw [Function.iterate_succ_apply]
    by_cases hover : cfg.maxAttempts < n.attemptCount + 1
    · have hstep : retryFail cfg n = { n with state := DeliveryState.EXPIRED } := by
        simp [retryFail, hs, hover]
      rw [hstep, Function.iterate_fixed (retryFail_expired_fixed cfg _ rfl)]
    · have hstep : retryFail cfg n =
          { n with attemptCount := n.attemptCount + 1,
                   nextRetryAt := n.nextRetryAt + backoffDelay cfg n.attemptCount } := by
        simp [retryFail, hs, hover]
      rw [hstep]
      exact ih _ hs (by simpa [Nat.add_assoc, Nat.add_comm, Nat.add_left_comm] using hb)

/-- C6: retrying is bounded — starting from any PENDING Notification, after at
most `maxAttempts + 1` consecutive failing sweeps the Notification is EXPIRED,
and every further sweep leaves it untouched, so the retry process never
continues indefinitely. -/
theorem c6_retry_bounded (cfg : RetryConfig) (n : Notification) (m : Nat)
    (h : n.state = DeliveryState.PENDING) :
    ((retryFail cfg)^[cfg.maxAttempts + 1] n).state = DeliveryState.EXPIRED ∧
    (retryFail cfg)^[m] ((retryFail cfg)^[cfg.maxAttempts + 1] n) =
      (retryFail cfg)^[cfg.maxAttempts + 1] n := by
  have hexp : ((retryFail cfg)^[cfg.maxAttempts + 1] n).state = DeliveryState.EXPIRED :=
    retryFail_iterate_expires cfg cfg.maxAttempts n h (Nat.le_add_left _ _)
  exact ⟨hexp, Function.iterate_fixed (retryFail_expired_fixed cfg _ hexp) m⟩

/-- Witness for `c6_retry_bounded`: with a retry bound of 4 attempts, a fresh
PENDING notification is EXPIRED after 5 consecutive failing sweeps and a
further 3 sweeps change nothing. -/
theorem c6_retry_bounded_witness :
    ((retryFail ⟨4, 2, 64⟩)^[5] ⟨0, 1, 1, DeliveryState.PENDING, 0, 0, 0⟩).state =
      DeliveryState.EXPIRED ∧
    (retryFail ⟨4, 2, 64⟩)^[3]
        ((retryFail ⟨4, 2, 64⟩)^[5] ⟨0, 1, 1, DeliveryState.PENDING, 0, 0, 0⟩) =
      (retryFail ⟨4, 2, 64⟩)^[5] ⟨0, 1, 1, DeliveryState.PENDING, 0, 0, 0⟩ :=
  c6_retry_bounded ⟨4, 2, 64⟩ ⟨0, 1, 1, DeliveryState.PENDING, 0, 0, 0⟩ 3 rfl

/-- The catch-up batch is a permutation of the recipient's PENDING set. -/
theorem catchUp_perm (notifs : List Notification) (r : Nat) :
    List.Perm (catchUp notifs r) (pendingFor notifs r) :=
  List.perm_insertionSort createdLE (pendingFor notifs r)

/-- The catch-up batch is sorted by creation time. -/
theorem catchUp_sorted (notifs : List Notification) (r : Nat) :
    List.Pairwise createdLE (catchUp notifs r) :=
  List.sorted_insertionSort createdLE (pendingFor notifs r)

/-- C5: for a reconnecting recipient, catch-up replays exactly that
recipient's PENDING notifications strictly in ascending creation-time order
(given that their creation times are distinct), and the replay precedes every
newly live-pushed frame in the sequence the gateway sends. -/
theorem c5_catchup_order (notifs : List Notification) (r : Nat)
    (live : List Notification)
    (hd : (pendingCreationTimes notifs r).Nodup) :
    strictlyAscendingByCreation (catchUp notifs r) ∧
    allPendingFor (catchUp notifs r) r ∧
    List.Perm (catchUp notifs r) (pendingFor notifs r) ∧
    reconnectFrames notifs r live = catchUp notifs r ++ live := by
  refine ⟨?_, ?_, catchUp_perm notifs r, rfl⟩
  · have hperm := (catchUp_perm notifs r).map Notification.createdAt
    have hnodup : ((catchUp notifs r).map Notification.createdAt).Nodup :=
      (hperm.nodup_iff).mpr hd
    have hne : List.Pairwise (fun a b : Notification => a.createdAt ≠ b.createdAt)
        (catchUp notifs r) := List.pairwise_map.mp hnodup
    exact ((catchUp_sorted notifs r).and hne).imp
      (fun h => Nat.lt_of_le_of_ne h.1 h.2)
  · intro n hn
    have hmem : n ∈ pendingFor notifs r := (catchUp_perm notifs r).mem_iff.mp hn
    have := List.mem_filter.mp hmem
    simpa [Bool.and_eq_true, beq_iff_eq] using this.2

/-- Witness for `c5_catchup_order`: recipient 7 has three PENDING
notifications created at times 30, 10, 20 (plus a DELIVERED one and one for
recipient 8); the replay is strictly ascending and precedes the live frame. -/
theorem c5_catchup_order_witness :
    strictlyAscendingByCreation (catchUp
      [⟨0, 7, 100, DeliveryState.PENDING, 0, 0, 30⟩,
       ⟨1, 7, 101, DeliveryState.PENDING, 0, 0, 10⟩,
       ⟨2, 7, 102, DeliveryState.DELIVERED, 0, 0, 15⟩,
       ⟨3, 8, 103, DeliveryState.PENDING, 0, 0, 5⟩,
       ⟨4, 7, 104, DeliveryState.PENDING, 0, 0, 20⟩] 7) ∧
    allPendingFor (catchUp
      [⟨0, 7, 100, DeliveryState.PENDING, 0, 0, 30⟩,
       ⟨1, 7, 101, DeliveryState.PENDING, 0, 0, 10⟩,
       ⟨2, 7, 102, DeliveryState.DELIVERED, 0, 0, 15⟩,
       ⟨3, 8, 103, DeliveryState.PENDING, 0, 0, 5⟩,
       ⟨4, 7, 104, DeliveryState.PENDING, 0, 0, 20⟩] 7) 7 ∧
    List.Perm (catchUp
      [⟨0, 7, 100, DeliveryState.PENDING, 0, 0, 30⟩,
       ⟨1, 7, 101, DeliveryState.PENDING, 0, 0, 10⟩,
       ⟨2, 7, 102, DeliveryState.DELIVERED, 0, 0, 15⟩,
       ⟨3, 8, 103, DeliveryState.PENDING, 0, 0, 5⟩,
       ⟨4, 7, 104, DeliveryState.PENDING, 0, 0, 20⟩] 7) (pendingFor
      [⟨0, 7, 100, DeliveryState.PENDING, 0, 0, 30⟩,
       ⟨1, 7, 101, DeliveryState.PENDING, 0, 0, 10⟩,
       ⟨2, 7, 102, DeliveryState.DELIVERED, 0, 0, 15⟩,
       ⟨3, 8, 103, DeliveryState.PENDING, 0, 0, 5⟩,
       ⟨4, 7, 104, DeliveryState.PENDING, 0, 0, 20⟩] 7) ∧
    reconnectFrames
      [⟨0, 7, 100, DeliveryState.PENDING, 0, 0, 30⟩,
       ⟨1, 7, 101, DeliveryState.PENDING, 0, 0, 10⟩,
       ⟨2, 7, 102, DeliveryState.DELIVERED, 0, 0, 15⟩,
       ⟨3, 8, 103, DeliveryState.PENDING, 0, 0, 5⟩,
       ⟨4, 7, 104, DeliveryState.PENDING, 0, 0, 20⟩] 7
      [⟨5, 7, 105, DeliveryState.PENDING, 0, 0, 40⟩] = catchUp
      [⟨0, 7, 100, DeliveryState.PENDING, 0, 0, 30⟩,
       ⟨1, 7, 101, DeliveryState.PENDING, 0, 0, 10⟩,
       ⟨2, 7, 102, DeliveryState.DELIVERED, 0, 0, 15⟩,
       ⟨3, 8, 103, DeliveryState.PENDING, 0, 0, 5⟩,
       ⟨4, 7, 104, DeliveryState.PENDING, 0, 0, 20⟩] 7 ++
      [⟨5, 7, 105, DeliveryState.PENDING, 0, 0, 40⟩] :=
  c5_catchup_order
    [⟨0, 7, 100, DeliveryState.PENDING, 0, 0, 30⟩,
     ⟨1, 7, 101, DeliveryState.PENDING, 0, 0, 10⟩,
     ⟨2, 7, 102, DeliveryState.DELIVERED, 0, 0, 15⟩,
     ⟨3, 8, 103, DeliveryState.PENDING, 0, 0, 5⟩,
     ⟨4, 7, 104, DeliveryState.PENDING, 0, 0, 20⟩] 7
    [⟨5, 7, 105, DeliveryState.PENDING, 0, 0, 40⟩]
    (by decide)

/-- The delivery attempt never changes which recipient a Notification is for. -/
theorem attemptDelivery_recipientId (cfg : RetryConfig) (env : Env) (n : Notification) :
    (attemptDelivery cfg env n).recipientId = n.recipientId := by
  unfold attemptDelivery
  split
  · rfl
  · split <;> rfl

/-- The delivery attempt never changes which event a Notification is for. -/
theorem attemptDelivery_eventId (cfg : RetryConfig) (env : Env) (n : Notification) :
    (attemptDelivery cfg env n).eventId = n.eventId := by
  unfold attemptDelivery
  split
  · rfl
  · split <;> rfl

/-- Case analysis on one per-recipient delivery step: either the state is
unchanged, or exactly one Notification for `(r, e.eventId)` was appended, and
then `canSee` held at this attempt and no Notification for that pair existed. -/
theorem deliverOne_cases (cfg : RetryConfig) (env : Env) (e : Event)
    (s : EngineState) (r : Nat) :
    (deliverOne cfg env e s r).notifications = s.notifications ∨
    ∃ n, (deliverOne cfg env e s r).notifications = s.notifications ++ [n] ∧
      n.recipientId = r ∧ n.eventId = e.eventId ∧
      canSee env e.actorId r e.kind = true ∧
      hasNotif s.notifications r e.eventId = false := by
  unfold deliverOne
  split
  · next hsee =>
    split
    · exact Or.inl rfl
    · next hnot =>
      refine Or.inr ⟨attemptDelivery cfg env
        (mkNotification s.nextNotifId r e.eventId e.createdAt), rfl, ?_, ?_, hsee, ?_⟩
      · rw [attemptDelivery_recipientId]; rfl
      · rw [attemptDelivery_eventId]; rfl
      · exact Bool.not_eq_true _ ▸ Bool.of_not_eq_true hnot
  · exact Or.inl rfl

/-- `hasNotif` distributes over list append. -/
theorem hasNotif_append (l1 l2 : List Notification) (r eid : Nat) :
    hasNotif (l1 ++ l2) r eid = (hasNotif l1 r eid || hasNotif l2 r eid) := by
  simp [hasNotif, List.any_append]

/-- A delivery step never erases an existing Notification record. -/
theorem hasNotif_deliverOne_mono (cfg : RetryConfig) (env : Env) (e : Event)
    (s : EngineState) (r' r eid : Nat)
    (h : hasNotif s.notifications r eid = true) :
    hasNotif (deliverOne cfg env e s r').notifications r eid = true := by
  rcases deliverOne_cases cfg env e s r' with hc | ⟨n, hc, _, _, _, _⟩ <;>
    rw [hc] <;> simp [hasNotif_append, h]

/-- A fold of delivery steps never erases an existing Notification record. -/
theorem hasNotif_foldl_mono (cfg : RetryConfig) (env : Env) (e : Event)
    (r eid : Nat) :
    ∀ (l : List Nat) (s : EngineState),
      hasNotif s.notifications r eid = true →
      hasNotif ((l.foldl (deliverOne cfg env e) s)).notifications r eid = true := by
  intro l
  induction l with
  | nil => intro s h; simpa using h
  | cons a l ih =>
    intro s h
    rw [List.foldl_cons]
    exact ih _ (hasNotif_deliverOne_mono cfg env e s a r eid h)

/-- A visible candidate with no existing record gets a Notification. -/
theorem deliverOne_creates (cfg : RetryConfig) (env : Env) (e : Event)
    (s : EngineState) (r : Nat)
    (hsee : canSee env e.actorId r e.kind = true)
    (hnot : hasNotif s.notifications r e.eventId = false) :
    hasNotif (deliverOne cfg env e s r).notifications r e.eventId = true := by
  unfold deliverOne
  rw [hsee, if_pos rfl, hnot]
  simp only [Bool.false_eq_true, if_false]
  rw [hasNotif_append, hnot]
  simp [hasNotif, attemptDelivery_recipientId, attemptDelivery_eventId, mkNotification]

/-- A delivery step for a different recipient does not create a Notification
for `r`. -/
theorem deliverOne_preserves_absent (cfg : RetryConfig) (env : Env) (e : Event)
    (s : EngineState) (r' r : Nat) (hne : r' ≠ r)
    (hnot : hasNotif s.notifications r e.eventId = false) :
    hasNotif (deliverOne cfg env e s r').notifications r e.eventId = false := by
  rcases deliverOne_cases cfg env e s r' with hc | ⟨n, hc, hrec, _, _, _⟩
  · rw [hc]; exact hnot
  · rw [hc, hasNotif_append, hnot]
    simp only [Bool.false_or]
    simp [hasNotif, hrec, hne]

/-- Existence of a Notification after folding the delivery step over a
candidate list: starting with no record for `(r, e.eventId)`, a record exists
afterwards iff `r` is in the list and `canSee` held at the attempt. -/
theorem hasNotif_foldl_iff (cfg : RetryConfig) (env : Env) (e : Event) (r : Nat) :
    ∀ (l : List Nat) (s : EngineState),
      hasNotif s.notifications r e.eventId = false →
      (hasNotif ((l.foldl (deliverOne cfg env e) s)).notifications r e.eventId = true ↔
        (r ∈ l ∧ canSee env e.actorId r e.kind = true)) := by
  intro l
  induction l with
  | nil =>
    intro s h
    simp [h]
  | cons a l ih =>
    intro s h
    rw [List.foldl_cons]
    by_cases har : a = r
    · subst har
      by_cases hsee : canSee env e.actorId a e.kind = true
      · have hcreated := deliverOne_creates cfg env e s a hsee h
        have := hasNotif_foldl_mono cfg env e a e.eventId l _ hcreated
        simp [this, hsee]
      · have hstep : (deliverOne cfg env e s a).notifications = s.notifications := by
          unfold deliverOne
          rw [if_neg (by simpa using hsee)]
        have hiff := ih (deliverOne cfg env e s a) (by rw [hstep]; exact h)
        rw [hiff]
        simp [hsee]
    · have habs := deliverOne_preserves_absent cfg env e s a r har h
      rw [ih _ habs]
      simp [List.mem_cons, Ne.symm har]

/-- Under PRIVATE privacy a non-follower cannot see POST/COMMENT/LIKE events. -/
theorem canSee_private_nonfollower (env : Env) (actorId r : Nat) (kind : EventKind)
    (hpriv : env.privacy actorId = Privacy.PRIVATE)
    (hfol : env.follows r actorId = false)
    (hkind : kind ≠ EventKind.FOLLOW) :
    canSee env actorId r kind = false := by
  cases kind <;> simp_all [canSee]

/-- C1: starting from a store with no Notification for `(R, E.eventId)`, after
the Delivery Worker Pool processes `E` a Notification for `(R, E)` exists iff
a delivery attempt for `R` occurred (`R` is in the candidate set) and `canSee`
held for `(E.actor, R, E.kind)` at the time of that attempt; in particular an
event whose delivery is attempted after the author flipped to PRIVATE is
suppressed for every non-follower recipient. -/
theorem c1_notification_iff_cansee (cfg : RetryConfig) (env : Env) (e : Event)
    (r : Nat) (s : EngineState)
    (h : hasNotif s.notifications r e.eventId = false) :
    (hasNotif (processEvent cfg env s e).notifications r e.eventId = true ↔
      (r ∈ candidates env e ∧ canSee env e.actorId r e.kind = true)) ∧
    (env.privacy e.actorId = Privacy.PRIVATE → env.follows r e.actorId = false →
      e.kind ≠ EventKind.FOLLOW →
      hasNotif (processEvent cfg env s e).notifications r e.eventId = false) := by
  have hiff := hasNotif_foldl_iff cfg env e r (candidates env e) s h
  refine ⟨hiff, ?_⟩
  intro hpriv hfol hkind
  have hsee := canSee_private_nonfollower env e.actorId r e.kind hpriv hfol hkind
  rcases hres : hasNotif (processEvent cfg env s e).notifications r e.eventId with _ | _
  · rfl
  · have := (hiff.mp hres).2
    rw [hsee] at this
    cases this

/-- Witness for `c1_notification_iff_cansee`: actor 0 is PUBLIC with follower
1; processing the POST event 100 from an empty store creates a Notification
for recipient 1 exactly because 1 is a visible candidate. -/
theorem c1_notification_iff_cansee_witness :
    (hasNotif (processEvent ⟨4, 2, 64⟩ sampleEnvPublic emptyEngineState
        sampleEvent).notifications 1 sampleEvent.eventId = true ↔
      (1 ∈ candidates sampleEnvPublic sampleEvent ∧
       canSee sampleEnvPublic sampleEvent.actorId 1 sampleEvent.kind = true)) ∧
    (sampleEnvPublic.privacy sampleEvent.actorId = Privacy.PRIVATE →
      sampleEnvPublic.follows 1 sampleEvent.actorId = false →
      sampleEvent.kind ≠ EventKind.FOLLOW →
      hasNotif (processEvent ⟨4, 2, 64⟩ sampleEnvPublic emptyEngineState
        sampleEvent).notifications 1 sampleEvent.eventId = false) :=
  c1_notification_iff_cansee ⟨4, 2, 64⟩ sampleEnvPublic sampleEvent 1
    emptyEngineState rfl

/-- `pairCount` distributes over list append. -/
theorem pairCount_append (l1 l2 : List Notification) (r eid : Nat) :
    pairCount (l1 ++ l2) r eid = pairCount l1 r eid + pairCount l2 r eid := by
  simp [pairCount, List.filter_append]

/-- Absence of a record for the pair is exactly a zero pair count. -/
theorem pairCount_eq_zero_of_hasNotif_false (l : List Notification) (r eid : Nat)
    (h : hasNotif l r eid = false) : pairCount l r eid = 0 := by
  simp only [hasNotif, List.any_eq_false] at h
  simp only [pairCount, List.length_eq_zero]
  exact List.filter_eq_nil_iff.mpr fun n hn => h n hn

/-- One delivery step preserves the at-most-one-record-per-pair invariant:
it appends a record only for a pair whose count was zero. -/
theorem pairCount_deliverOne_le_one (cfg : RetryConfig) (env : Env) (e : Event)
    (s : EngineState) (r' : Nat)
    (h : ∀ a b, pairCount s.notifications a b ≤ 1) :
    ∀ a b, pairCount (deliverOne cfg env e s r').notifications a b ≤ 1 := by
  intro a b
  rcases deliverOne_cases cfg env e s r' with hc | ⟨n, hc, hrec, heid, _, hnot⟩
  · rw [hc]; exact h a b
  · rw [hc, pairCount_append]
    by_cases hmatch : (n.recipientId == a && n.eventId == b) = true
    · have hz : pairCount s.notifications a b = 0 := by
        rw [Bool.and_eq_true, beq_iff_eq, beq_iff_eq] at hmatch
        rw [← hmatch.1, ← hmatch.2, hrec, heid]
        exact pairCount_eq_zero_of_hasNotif_false _ _ _ hnot
      have hone : pairCount [n] a b ≤ 1 := by
        simp [pairCount, List.filter]
        split <;> simp
      omega
    · have hzero : pairCount [n] a b = 0 := by
        simp only [pairCount, List.filter, hmatch]
        rfl
      rw [hzero]
      simpa using h a b

/-- Folding the delivery step over any candidate list preserves the
at-most-one-record-per-pair invariant. -/
theorem pairCount_foldl_le_one (cfg : RetryConfig) (env : Env) (e : Event) :
    ∀ (l : List Nat) (s : EngineState),
      (∀ a b, pairCount s.notifications a b ≤ 1) →
      ∀ a b, pairCount ((l.foldl (deliverOne cfg env e) s)).notifications a b ≤ 1 := by
  intro l
  induction l with
  | nil => intro s h; simpa using h
  | cons x l ih =>
    intro s h
    rw [List.foldl_cons]
    exact ih _ (pairCount_deliverOne_le_one cfg env e s x h)

/-- Processing one event preserves the at-most-one-record-per-pair invariant. -/
theorem pairCount_processEvent_le_one (cfg : RetryConfig) (env : Env)
    (s : EngineState) (e : Event)
    (h : ∀ a b, pairCount s.notifications a b ≤ 1) :
    ∀ a b, pairCount (processEvent cfg env s e).notifications a b ≤ 1 :=
  pairCount_foldl_le_one cfg env e (candidates env e) s h

/-- C2: for every recipient and event id, at most one Notification ever
exists for the pair — the existence check before creation keeps the store
duplicate-free across any sequence of (re)delivery attempts, each evaluated
against the environment of that attempt, so arbitrary Event Bus redelivery of
the same event never creates a duplicate. -/
theorem c2_no_duplicate_notifications (cfg : RetryConfig)
    (attempts : List (Env × Event)) (s : EngineState) (r eid : Nat)
    (h : ∀ a b, pairCount s.notifications a b ≤ 1) :
    pairCount (processAll cfg s attempts).notifications r eid ≤ 1 := by
  unfold processAll
  induction attempts generalizing s with
  | nil => simpa using h r eid
  | cons p l ih =>
    rw [List.foldl_cons]
    exact ih _ (pairCount_processEvent_le_one cfg p.1 s p.2 h)

/-- Witness for `c2_no_duplicate_notifications`: the POST event 100 is
redelivered three times — twice while the author is PUBLIC and once after the
author flipped to PRIVATE — starting from an empty store; recipient 1 still
holds at most one Notification for event 100. -/
theorem c2_no_duplicate_notifications_witness :
    pairCount (processAll ⟨4, 2, 64⟩ emptyEngineState
      [(sampleEnvPublic, sampleEvent), (sampleEnvPublic, sampleEvent),
       (sampleEnvPrivate, sampleEvent)]).notifications 1 100 ≤ 1 :=
  c2_no_duplicate_notifications ⟨4, 2, 64⟩
    [(sampleEnvPublic, sampleEvent), (sampleEnvPublic, sampleEvent),
     (sampleEnvPrivate, sampleEvent)]
    emptyEngineState 1 100
    (fun a b => by simp [emptyEngineState, pairCount])

end Neuhu
